import Mathlib

/-
Shallow embedding of the AI collection-assignment core of the repository:
  apps/worker/lib/autoAssignCollection.ts   (provider resolver, prompt builder,
                                             classification invoker, assignment resolver)
  apps/web/pages/api/v1/collections/ai-assign.ts   (batch coordinator endpoint)

JavaScript conventions modelled explicitly:
  - an environment variable is a String, with "" standing for unset/empty; JS
    truthiness of a string is "nonempty";
  - `a || b` on strings is `jsOr`;
  - `s.slice(0, n)` is `jsSlice` (first n characters);
  - `[..].filter(Boolean)` on a list of possibly-absent strings is `jsFilterBoolean`;
  - a thrown-and-caught error region is modelled by an `Except`/`Option` value;
  - the external structured-generation model is an oracle `classify : String -> Option Int`
    mapping the prompt to a schema-validated reply (`none` = request or validation failure).
-/

/-- JS `a || b` for strings: the left operand unless it is falsy (empty). -/
def jsOr (a b : String) : String :=
  if a = "" then b else a

/-- JS `s.slice(0, n)`: the first `n` characters of `s`. -/
def jsSlice (s : String) (n : Nat) : String :=
  String.mk (s.data.take n)

/-- JS `[...].filter(Boolean)` over possibly-absent strings: drops `undefined`
and empty strings. -/
def jsFilterBoolean (l : List (Option String)) : List String :=
  l.filterMap (fun o => match o with
    | none => none
    | some s => if s = "" then none else some s)

/-- Models `base.replace(/\/$/, "")`: removes one trailing slash when present. -/
def stripTrailingSlash (s : String) : String :=
  if s.endsWith "/" then s.dropRight 1 else s

/-- Models `path.replace(/^\//, "")`: removes one leading slash when present. -/
def stripLeadingSlash (s : String) : String :=
  if s.startsWith "/" then s.drop 1 else s

/-- Source function `ensureValidURL` from autoAssignCollection.ts. -/
def ensureValidURL (base path : String) : String :=
  stripTrailingSlash base ++ "/" ++ stripLeadingSlash path

/-- The process environment variables read by the core. `""` means unset. -/
structure Env where
  OPENAI_API_KEY : String := ""
  OPENAI_MODEL : String := ""
  CUSTOM_OPENAI_BASE_URL : String := ""
  CUSTOM_OPENAI_NAME : String := ""
  AZURE_API_KEY : String := ""
  AZURE_RESOURCE_NAME : String := ""
  AZURE_MODEL : String := ""
  ANTHROPIC_API_KEY : String := ""
  ANTHROPIC_MODEL : String := ""
  NEXT_PUBLIC_OLLAMA_ENDPOINT_URL : String := ""
  OLLAMA_MODEL : String := ""
  OPENROUTER_API_KEY : String := ""
  OPENROUTER_MODEL : String := ""
  PERPLEXITY_API_KEY : String := ""
  PERPLEXITY_MODEL : String := ""
deriving DecidableEq, Repr

/-- The resolved language-model handle, one constructor per provider slot,
carrying the configuration the source passes to the provider factory. -/
inductive AIModel where
  | openaiCompatible (baseURL name apiKey model : String)
  | azure (model : String)
  | anthropic (model : String)
  | ollama (baseURL model : String) (structuredOutputs : Bool)
  | openrouter (apiKey model : String)
  | perplexity (model : String)
deriving DecidableEq, Repr

/-- Source function `getAIModel` from autoAssignCollection.ts: ordered first-match probe over
the provider slots; `.error` models the thrown `Error`. -/
def getAIModel (e : Env) : Except String AIModel :=
  if e.OPENAI_API_KEY ≠ "" ∧ e.OPENAI_MODEL ≠ "" then
    .ok (.openaiCompatible (jsOr e.CUSTOM_OPENAI_BASE_URL "https://api.openai.com/v1")
      (jsOr e.CUSTOM_OPENAI_NAME "openai") e.OPENAI_API_KEY e.OPENAI_MODEL)
  else if e.AZURE_API_KEY ≠ "" ∧ e.AZURE_RESOURCE_NAME ≠ "" ∧ e.AZURE_MODEL ≠ "" then
    .ok (.azure e.AZURE_MODEL)
  else if e.ANTHROPIC_API_KEY ≠ "" ∧ e.ANTHROPIC_MODEL ≠ "" then
    .ok (.anthropic e.ANTHROPIC_MODEL)
  else if e.NEXT_PUBLIC_OLLAMA_ENDPOINT_URL ≠ "" ∧ e.OLLAMA_MODEL ≠ "" then
    .ok (.ollama (ensureValidURL e.NEXT_PUBLIC_OLLAMA_ENDPOINT_URL "api") e.OLLAMA_MODEL true)
  else if e.OPENROUTER_API_KEY ≠ "" ∧ e.OPENROUTER_MODEL ≠ "" then
    .ok (.openrouter e.OPENROUTER_API_KEY e.OPENROUTER_MODEL)
  else if e.PERPLEXITY_API_KEY ≠ "" then
    .ok (.perplexity (jsOr e.PERPLEXITY_MODEL "sonar-pro"))
  else
    .error "No AI provider configured"

/-- A User row, restricted to the fields this core reads. -/
structure User where
  id : Int
  aiCollectionsEnabled : Bool
deriving DecidableEq, Repr

/-- A Collection row, restricted to the fields this core reads. -/
structure Collection where
  id : Int
  name : String
  description : String
  ownerId : Int
  updatedAt : Int
deriving DecidableEq, Repr

/-- A Link row, restricted to the fields this core reads or writes. -/
structure LinkRec where
  id : Int
  url : String
  name : String
  description : String
  textContent : Option String
  collectionId : Int
  aiCollectionAssigned : Bool
deriving DecidableEq, Repr

/-- The `{id, name, description}` projection selected for the candidate set. -/
structure CandidateCollection where
  id : Int
  name : String
  description : String
deriving DecidableEq, Repr

/-- Source interface `AssignmentContext` from autoAssignCollection.ts. -/
structure AssignmentContext where
  metaDescription : Option String := none
  pageContent : Option String := none
deriving DecidableEq, Repr

/-- The relational store, as the rows the core touches. -/
structure DB where
  users : List User
  collections : List Collection
  links : List LinkRec
deriving DecidableEq, Repr

/-- Stable insertion of a collection into a list sorted by `updatedAt`
descending (newer first). -/
def insertByUpdatedAtDesc (c : Collection) : List Collection → List Collection
  | [] => [c]
  | d :: ds =>
    if d.updatedAt < c.updatedAt then c :: d :: ds
    else d :: insertByUpdatedAtDesc c ds

/-- Models the query ordering by `updatedAt` descending, as a stable insertion sort. -/
def sortByUpdatedAtDesc (l : List Collection) : List Collection :=
  l.foldr insertByUpdatedAtDesc []

/-- Models the collection query of the resolver: the collections owned by the user,
newest-updated first, capped at 25, projected to id, name and description —
the classification candidate set. -/
def candidateCollections (db : DB) (user : User) : List CandidateCollection :=
  (((sortByUpdatedAtDesc (db.collections.filter (fun c => c.ownerId == user.id))).take 25).map
    (fun c => { id := c.id, name := c.name, description := c.description }))

/-- The list of text sources for the condensed content block, before
filtering: link name, link description, supplied meta description, supplied
page content, in that order. -/
def condensedSources (link : LinkRec) (context : AssignmentContext) : List (Option String) :=
  [some link.name, some link.description, context.metaDescription, context.pageContent]

/-- The condensed content block of the prompt: the sources filtered by
truthiness, joined with newlines, sliced to the first 2000 characters. -/
def condensedContent (link : LinkRec) (context : AssignmentContext) : String :=
  jsSlice (String.intercalate "\n" (jsFilterBoolean (condensedSources link context))) 2000

/-- One rendered candidate line: `id: name (description)`, the parenthesised
description omitted when falsy. -/
def candidateLine (c : CandidateCollection) : String :=
  toString c.id ++ ": " ++ c.name ++
    (if c.description ≠ "" then " (" ++ c.description ++ ")" else "")

/-- Source function `buildPrompt` from autoAssignCollection.ts. The TS link argument
carries its joined collection record; the joined collection name is passed here
as `linkCollectionName`. -/
def buildPrompt (link : LinkRec) (linkCollectionName : String)
    (collections : List CandidateCollection) (context : AssignmentContext) : String :=
  let collectionList := String.intercalate "\n-" (collections.map candidateLine)
  let condensed := condensedContent link context
  "You are a Linkwarden assistant that routes links into one of the existing collections.\n" ++
  "Pick exactly one collection id from the provided list. Prefer the best topical match.\n" ++
  "If nothing clearly matches, keep the current collection id " ++ toString link.collectionId ++
  ".\n\nCollections (id: name and optional description):\n-" ++ collectionList ++
  "\n\nLink:\n- URL: " ++ link.url ++
  "\n- Current collection: " ++ linkCollectionName ++
  "\n- Summary: " ++ condensed ++
  "\n\nRespond with only JSON in the form \x7b\"collectionId\": <id from the list>\x7d."

/-- Models the collection join of the link query: the name of the collection a link
currently belongs to. -/
def collectionNameOf (db : DB) (link : LinkRec) : String :=
  match db.collections.find? (fun c => c.id == link.collectionId) with
  | some c => c.name
  | none => ""

/-- The try/catch region around `generateObject`: resolving the provider and
asking the oracle for a schema-validated reply; `none` models any thrown or
invalid outcome (caught and logged by the caller). -/
def classifyCall (e : Env) (classify : String → Option Int) (prompt : String) : Option Int :=
  match getAIModel e with
  | .error _ => none
  | .ok _ => classify prompt

/-- Models the link update query: applies `f` to the link with the given id. -/
def updateLink (db : DB) (linkId : Int) (f : LinkRec → LinkRec) : DB :=
  { db with links := db.links.map (fun l => if l.id == linkId then f l else l) }

/-- Source function `autoAssignCollection` from autoAssignCollection.ts: one full decision
cycle over the store, returning the resulting collection id (`none` is the
`undefined` no-decision sentinel) and the updated store. -/
def autoAssignCollection (e : Env) (user : User) (linkId : Int)
    (context : AssignmentContext) (classify : String → Option Int) (db : DB) :
    Option Int × DB :=
  if !user.aiCollectionsEnabled then (none, db)
  else
    match db.links.find? (fun l => l.id == linkId) with
    | none => (none, db)
    | some link =>
      if link.aiCollectionAssigned then (none, db)
      else
        let collections := candidateCollections db user
        if collections.isEmpty then (none, db)
        else
          let prompt := buildPrompt link (collectionNameOf db link) collections context
          match classifyCall e classify prompt with
          | none => (none, db)
          | some rid =>
            let allowedIds := collections.map (fun c => c.id)
            let chosenId := if rid ∈ allowedIds then rid else link.collectionId
            if chosenId == link.collectionId then
              (some link.collectionId,
                updateLink db link.id (fun l => { l with aiCollectionAssigned := true }))
            else
              (some chosenId,
                updateLink db link.id
                  (fun l => { l with collectionId := chosenId, aiCollectionAssigned := true }))

/-- The batch endpoint response, one constructor per `res.status().json()` site. -/
inductive HandlerResult where
  | methodNotAllowed
  | unauthorized (msg : String)
  | userNotFound
  | badRequest (msg : String)
  | ok (processed : Nat)
deriving DecidableEq, Repr

/-- The HTTP status code of each response. -/
def statusOf : HandlerResult → Nat
  | .methodNotAllowed => 405
  | .unauthorized _ => 401
  | .userNotFound => 404
  | .badRequest _ => 400
  | .ok _ => 200

/-- The endpoint gate `NEXT_PUBLIC_OLLAMA_ENDPOINT_URL || OPENAI_API_KEY ||
AZURE_API_KEY || ANTHROPIC_API_KEY || OPENROUTER_API_KEY || PERPLEXITY_API_KEY`. -/
def providerKeyPresent (e : Env) : Bool :=
  e.NEXT_PUBLIC_OLLAMA_ENDPOINT_URL ≠ "" ∨ e.OPENAI_API_KEY ≠ "" ∨
    e.AZURE_API_KEY ≠ "" ∨ e.ANTHROPIC_API_KEY ≠ "" ∨
    e.OPENROUTER_API_KEY ≠ "" ∨ e.PERPLEXITY_API_KEY ≠ ""

/-- Models the batch where-clause: the link belongs to a collection owned by the
given user. -/
def linkOwnedBy (db : DB) (l : LinkRec) (uid : Int) : Bool :=
  match db.collections.find? (fun c => c.id == l.collectionId) with
  | some c => c.ownerId == uid
  | none => false

/-- Models the batch selection: the first 50 links owned by the user and not yet
latched. -/
def selectBatchLinks (db : DB) (uid : Int) : List LinkRec :=
  (db.links.filter (fun l => linkOwnedBy db l uid && !l.aiCollectionAssigned)).take 50

/-- The per-link context the endpoint passes to the resolver: the stored
description as `metaDescription` and `textContent?.slice(0, 2000)` as
`pageContent`. -/
def apiContext (l : LinkRec) : AssignmentContext :=
  { metaDescription := some l.description,
    pageContent := l.textContent.map (fun s => jsSlice s 2000) }

/-- Models the for loop of the endpoint: run the resolver over each selected link
sequentially, counting every iteration. -/
def batchLoop (e : Env) (user : User) (classify : Int → String → Option Int) :
    List LinkRec → Nat × DB → Nat × DB
  | [], acc => acc
  | l :: ls, (n, db) =>
    let step := autoAssignCollection e user l.id (apiContext l) (classify l.id) db
    batchLoop e user classify ls (n + 1, step.2)

/-- Source handler of POST /api/v1/collections/ai-assign. Here `tokenRes` models
`verifyToken` (a `String` result means unauthenticated); `classify` is the
model oracle, per link id and prompt. -/
def handler (e : Env) (db : DB) (method : String) (tokenRes : Except String Int)
    (classify : Int → String → Option Int) : HandlerResult × DB :=
  if method ≠ "POST" then (.methodNotAllowed, db)
  else
    match tokenRes with
    | .error msg => (.unauthorized msg, db)
    | .ok uid =>
      match db.users.find? (fun u => u.id == uid) with
      | none => (.userNotFound, db)
      | some user =>
        if !user.aiCollectionsEnabled then
          (.badRequest "AI collection routing is disabled.", db)
        else if !providerKeyPresent e then
          (.badRequest "No AI provider configured.", db)
        else
          let links := selectBatchLinks db user.id
          let res := batchLoop e user classify links (0, db)
          (.ok res.1, res.2)

/-
Helper lemmas about the embedding.
-/

/-- A slice to `n` characters is never longer than `n`. -/
theorem jsSlice_length_le (s : String) (n : Nat) : (jsSlice s n).length ≤ n := by
  show (s.data.take n).length ≤ n
  simp [Nat.min_le_left]

/-- Finding by id in an id-preserving conditional map rewrites the found record. -/
theorem find?_map_ite_id (links : List LinkRec) (n : Int) (g : LinkRec → LinkRec)
    (hg : ∀ l, (g l).id = l.id) (link : LinkRec)
    (h : links.find? (fun l => l.id == n) = some link) :
    (links.map (fun l => if l.id == n then g l else l)).find? (fun l => l.id == n)
      = some (g link) := by
  induction links with
  | nil => simp at h
  | cons a as ih =>
    by_cases ha : a.id = n
    · rw [List.find?_cons_of_pos _ (by simp [ha])] at h
      injection h with h
      subst h
      simp only [List.map_cons, if_pos (by simp [ha] : (a.id == n) = true)]
      exact List.find?_cons_of_pos _ (by simp [hg, ha])
    · rw [List.find?_cons_of_neg _ (by simp [ha])] at h
      simp only [List.map_cons, if_neg (by simp [ha] : ¬(a.id == n) = true)]
      rw [List.find?_cons_of_neg _ (by simp [ha])]
      exact ih h

/-- Membership in the insertion step. -/
theorem mem_insertByUpdatedAtDesc (c a : Collection) (l : List Collection) :
    a ∈ insertByUpdatedAtDesc c l ↔ a = c ∨ a ∈ l := by
  induction l with
  | nil => simp [insertByUpdatedAtDesc]
  | cons d ds ih =>
    by_cases hd : d.updatedAt < c.updatedAt
    · simp [insertByUpdatedAtDesc, hd]
    · simp only [insertByUpdatedAtDesc, if_neg hd, List.mem_cons, ih]
      tauto

/-- The sort is a permutation in the membership sense. -/
theorem mem_sortByUpdatedAtDesc (a : Collection) (l : List Collection) :
    a ∈ sortByUpdatedAtDesc l ↔ a ∈ l := by
  induction l with
  | nil => simp [sortByUpdatedAtDesc]
  | cons d ds ih =>
    show a ∈ insertByUpdatedAtDesc d (sortByUpdatedAtDesc ds) ↔ _
    simp [mem_insertByUpdatedAtDesc, ih]

/-- Inserting into a descending-sorted list keeps it descending-sorted. -/
theorem pairwise_insertByUpdatedAtDesc (c : Collection) (l : List Collection)
    (h : l.Pairwise (fun a b => b.updatedAt ≤ a.updatedAt)) :
    (insertByUpdatedAtDesc c l).Pairwise (fun a b => b.updatedAt ≤ a.updatedAt) := by
  induction l with
  | nil => simp [insertByUpdatedAtDesc]
  | cons d ds ih =>
    rcases List.pairwise_cons.mp h with ⟨hd, hds⟩
    by_cases hlt : d.updatedAt < c.updatedAt
    · simp only [insertByUpdatedAtDesc, if_pos hlt]
      refine List.pairwise_cons.mpr ⟨?_, h⟩
      intro b hb
      rcases List.mem_cons.mp hb with rfl | hb
      · exact le_of_lt hlt
      · exact le_trans (hd b hb) (le_of_lt hlt)
    · simp only [insertByUpdatedAtDesc, if_neg hlt]
      refine List.pairwise_cons.mpr ⟨?_, ih hds⟩
      intro b hb
      rcases (mem_insertByUpdatedAtDesc c b ds).mp hb with rfl | hb
      · exact not_lt.mp hlt
      · exact hd b hb

/-- The sort output is descending-sorted by `updatedAt`. -/
theorem pairwise_sortByUpdatedAtDesc (l : List Collection) :
    (sortByUpdatedAtDesc l).Pairwise (fun a b => b.updatedAt ≤ a.updatedAt) := by
  induction l with
  | nil => simp [sortByUpdatedAtDesc]
  | cons d ds ih => exact pairwise_insertByUpdatedAtDesc d _ ih

/-- Every candidate is the projection of a collection of the store owned by the
requesting user. -/
theorem candidateCollections_owned (db : DB) (user : User) :
    ∀ cc ∈ candidateCollections db user,
      ∃ c ∈ db.collections, c.id = cc.id ∧ c.ownerId = user.id := by
  intro cc hcc
  obtain ⟨c, hc, rfl⟩ := List.mem_map.mp hcc
  have hc' : c ∈ sortByUpdatedAtDesc (db.collections.filter (fun c => c.ownerId == user.id)) :=
    List.mem_of_mem_take hc
  have hc'' := (mem_sortByUpdatedAtDesc c _).mp hc'
  refine ⟨c, List.mem_of_mem_filter hc'', ?_, ?_⟩
  · rfl
  · simpa using List.of_mem_filter hc''

/-- The candidate set never exceeds 25 entries. -/
theorem candidateCollections_length_le (db : DB) (user : User) :
    (candidateCollections db user).length ≤ 25 := by
  simp only [candidateCollections, List.length_map]
  simp [Nat.min_le_left]

/-
Concrete sample data used by witnesses and counterexamples.
-/

/-- A user with the AI collection feature enabled. -/
def sampleUser : User := { id := 7, aiCollectionsEnabled := true }

/-- A sample collection without description. -/
def sampleRecipes : Collection :=
  { id := 1, name := "Recipes", description := "", ownerId := 7, updatedAt := 10 }

/-- A sample collection with description, updated more recently. -/
def sampleWork : Collection :=
  { id := 2, name := "Work", description := "job search", ownerId := 7, updatedAt := 20 }

/-- A sample unprocessed link in collection 1. -/
def sampleLink : LinkRec :=
  { id := 100, url := "https://example.com/post", name := "React job posting",
    description := "React job posting at a startup", textContent := none,
    collectionId := 1, aiCollectionAssigned := false }

/-- A sample store with one user, two collections and one link. -/
def sampleDB : DB :=
  { users := [sampleUser], collections := [sampleRecipes, sampleWork], links := [sampleLink] }

/-- An environment with a fully configured OpenAI-compatible slot. -/
def envOpenAI : Env := { OPENAI_API_KEY := "sk-test", OPENAI_MODEL := "gpt-test" }

/-- An environment with only the Perplexity API key set and no model name at all. -/
def envPerplexityKeyOnly : Env := { PERPLEXITY_API_KEY := "pplx-key" }

/-
Claim theorems.
-/

/-- C7: the condensed content block concatenates, in order, the link name, its
description, the supplied meta description and the supplied page content,
drops falsy fields, joins with newlines, and hard-truncates the join to its
first 2000 characters, so it never exceeds 2000 characters. -/
theorem condensedContent_capped (link : LinkRec) (context : AssignmentContext) :
    condensedContent link context
        = jsSlice (String.intercalate "\n"
            (jsFilterBoolean [some link.name, some link.description,
              context.metaDescription, context.pageContent])) 2000 ∧
    (condensedContent link context).length ≤ 2000 :=
  ⟨rfl, jsSlice_length_le _ 2000⟩

/-- C9: the prompt builder is a pure function of its inputs — two calls on
identical link, collection-name, candidate and context inputs produce
identical prompt text. -/
theorem buildPrompt_deterministic (l₁ l₂ : LinkRec) (n₁ n₂ : String)
    (cs₁ cs₂ : List CandidateCollection) (ctx₁ ctx₂ : AssignmentContext)
    (hl : l₁ = l₂) (hn : n₁ = n₂) (hc : cs₁ = cs₂) (hx : ctx₁ = ctx₂) :
    buildPrompt l₁ n₁ cs₁ ctx₁ = buildPrompt l₂ n₂ cs₂ ctx₂ := by
  subst hl; subst hn; subst hc; subst hx; rfl

/-- Witness for C9 at a concrete input. -/
theorem buildPrompt_deterministic_witness :
    buildPrompt sampleLink "Recipes" [] {} = buildPrompt sampleLink "Recipes" [] {} :=
  buildPrompt_deterministic sampleLink sampleLink "Recipes" "Recipes" [] [] {} {}
    rfl rfl rfl rfl

/-- C4 (amended): the provider resolver is an ordered first-match probe over
the slots OpenAI-compatible, Azure, Anthropic, Ollama, OpenRouter, Perplexity;
the first five slots each require their own key/endpoint and model name (plus
the resource name for Azure), while the Perplexity slot requires only its API
key, its model defaulting to "sonar-pro"; it fails with
"No AI provider configured" exactly when no slot is eligible; being a function
of the configuration snapshot it is deterministic. -/
theorem getAIModel_firstMatch (e : Env) :
    (getAIModel e = .error "No AI provider configured" ↔
      ¬(e.OPENAI_API_KEY ≠ "" ∧ e.OPENAI_MODEL ≠ "") ∧
      ¬(e.AZURE_API_KEY ≠ "" ∧ e.AZURE_RESOURCE_NAME ≠ "" ∧ e.AZURE_MODEL ≠ "") ∧
      ¬(e.ANTHROPIC_API_KEY ≠ "" ∧ e.ANTHROPIC_MODEL ≠ "") ∧
      ¬(e.NEXT_PUBLIC_OLLAMA_ENDPOINT_URL ≠ "" ∧ e.OLLAMA_MODEL ≠ "") ∧
      ¬(e.OPENROUTER_API_KEY ≠ "" ∧ e.OPENROUTER_MODEL ≠ "") ∧
      ¬(e.PERPLEXITY_API_KEY ≠ "")) ∧
    ((e.OPENAI_API_KEY ≠ "" ∧ e.OPENAI_MODEL ≠ "") →
      getAIModel e = .ok (.openaiCompatible
        (jsOr e.CUSTOM_OPENAI_BASE_URL "https://api.openai.com/v1")
        (jsOr e.CUSTOM_OPENAI_NAME "openai") e.OPENAI_API_KEY e.OPENAI_MODEL)) ∧
    (¬(e.OPENAI_API_KEY ≠ "" ∧ e.OPENAI_MODEL ≠ "") →
      (e.AZURE_API_KEY ≠ "" ∧ e.AZURE_RESOURCE_NAME ≠ "" ∧ e.AZURE_MODEL ≠ "") →
      getAIModel e = .ok (.azure e.AZURE_MODEL)) ∧
    (¬(e.OPENAI_API_KEY ≠ "" ∧ e.OPENAI_MODEL ≠ "") →
      ¬(e.AZURE_API_KEY ≠ "" ∧ e.AZURE_RESOURCE_NAME ≠ "" ∧ e.AZURE_MODEL ≠ "") →
      (e.ANTHROPIC_API_KEY ≠ "" ∧ e.ANTHROPIC_MODEL ≠ "") →
      getAIModel e = .ok (.anthropic e.ANTHROPIC_MODEL)) ∧
    (¬(e.OPENAI_API_KEY ≠ "" ∧ e.OPENAI_MODEL ≠ "") →
      ¬(e.AZURE_API_KEY ≠ "" ∧ e.AZURE_RESOURCE_NAME ≠ "" ∧ e.AZURE_MODEL ≠ "") →
      ¬(e.ANTHROPIC_API_KEY ≠ "" ∧ e.ANTHROPIC_MODEL ≠ "") →
      (e.NEXT_PUBLIC_OLLAMA_ENDPOINT_URL ≠ "" ∧ e.OLLAMA_MODEL ≠ "") →
      getAIModel e = .ok (.ollama
        (ensureValidURL e.NEXT_PUBLIC_OLLAMA_ENDPOINT_URL "api") e.OLLAMA_MODEL true)) ∧
    (¬(e.OPENAI_API_KEY ≠ "" ∧ e.OPENAI_MODEL ≠ "") →
      ¬(e.AZURE_API_KEY ≠ "" ∧ e.AZURE_RESOURCE_NAME ≠ "" ∧ e.AZURE_MODEL ≠ "") →
      ¬(e.ANTHROPIC_API_KEY ≠ "" ∧ e.ANTHROPIC_MODEL ≠ "") →
      ¬(e.NEXT_PUBLIC_OLLAMA_ENDPOINT_URL ≠ "" ∧ e.OLLAMA_MODEL ≠ "") →
      (e.OPENROUTER_API_KEY ≠ "" ∧ e.OPENROUTER_MODEL ≠ "") →
      getAIModel e = .ok (.openrouter e.OPENROUTER_API_KEY e.OPENROUTER_MODEL)) ∧
    (¬(e.OPENAI_API_KEY ≠ "" ∧ e.OPENAI_MODEL ≠ "") →
      ¬(e.AZURE_API_KEY ≠ "" ∧ e.AZURE_RESOURCE_NAME ≠ "" ∧ e.AZURE_MODEL ≠ "") →
      ¬(e.ANTHROPIC_API_KEY ≠ "" ∧ e.ANTHROPIC_MODEL ≠ "") →
      ¬(e.NEXT_PUBLIC_OLLAMA_ENDPOINT_URL ≠ "" ∧ e.OLLAMA_MODEL ≠ "") →
      ¬(e.OPENROUTER_API_KEY ≠ "" ∧ e.OPENROUTER_MODEL ≠ "") →
      e.PERPLEXITY_API_KEY ≠ "" →
      getAIModel e = .ok (.perplexity (jsOr e.PERPLEXITY_MODEL "sonar-pro"))) := by
  refine ⟨?_, ?_, ?_, ?_, ?_, ?_, ?_⟩
  · unfold getAIModel
    split_ifs with h1 h2 h3 h4 h5 h6 <;> simp_all
  · intro h1; simp [getAIModel, h1]
  · intro h1 h2; simp [getAIModel, h1, h2]
  · intro h1 h2 h3; simp [getAIModel, h1, h2, h3]
  · intro h1 h2 h3 h4; simp [getAIModel, h1, h2, h3, h4]
  · intro h1 h2 h3 h4 h5; simp [getAIModel, h1, h2, h3, h4, h5]
  · intro h1 h2 h3 h4 h5 h6; simp [getAIModel, h1, h2, h3, h4, h5, h6]

/-- Witness for C4: the first slot fully configured resolves to the
OpenAI-compatible model with the default base URL and provider name. -/
theorem getAIModel_firstMatch_witness :
    getAIModel envOpenAI = .ok (.openaiCompatible
      (jsOr envOpenAI.CUSTOM_OPENAI_BASE_URL "https://api.openai.com/v1")
      (jsOr envOpenAI.CUSTOM_OPENAI_NAME "openai")
      envOpenAI.OPENAI_API_KEY envOpenAI.OPENAI_MODEL) :=
  (getAIModel_firstMatch envOpenAI).2.1 (by decide)

/-- Counterexample for C4 as stated: the Perplexity slot is eligible with only
its API key set, although every model-name variable is empty, so the claim
that every slot requires a model name fails. -/
theorem getAIModel_perplexity_no_model :
    envPerplexityKeyOnly.PERPLEXITY_MODEL = "" ∧
    envPerplexityKeyOnly.OPENAI_MODEL = "" ∧
    envPerplexityKeyOnly.AZURE_MODEL = "" ∧
    envPerplexityKeyOnly.ANTHROPIC_MODEL = "" ∧
    envPerplexityKeyOnly.OLLAMA_MODEL = "" ∧
    envPerplexityKeyOnly.OPENROUTER_MODEL = "" ∧
    getAIModel envPerplexityKeyOnly = .ok (.perplexity "sonar-pro") := by
  refine ⟨rfl, rfl, rfl, rfl, rfl, rfl, ?_⟩
  rfl

/-- Helper: every no-decision path of the resolver returns the sentinel and
leaves the store unchanged. -/
theorem autoAssign_noop_of (e : Env) (user : User) (linkId : Int)
    (context : AssignmentContext) (classify : String → Option Int) (db : DB)
    (h : user.aiCollectionsEnabled = false ∨
         db.links.find? (fun l => l.id == linkId) = none ∨
         (∃ link, db.links.find? (fun l => l.id == linkId) = some link ∧
            link.aiCollectionAssigned = true) ∨
         candidateCollections db user = [] ∨
         (∃ link, db.links.find? (fun l => l.id == linkId) = some link ∧
            classifyCall e classify (buildPrompt link (collectionNameOf db link)
              (candidateCollections db user) context) = none)) :
    autoAssignCollection e user linkId context classify db = (none, db) := by
  unfold autoAssignCollection
  rcases h with h | h | ⟨link, hf, hl⟩ | h | ⟨link, hf, hr⟩
  · simp [h]
  · cases he : user.aiCollectionsEnabled <;> simp [h, he]
  · cases he : user.aiCollectionsEnabled <;> simp [hf, hl, he]
  · cases he : user.aiCollectionsEnabled <;>
      cases hf : db.links.find? (fun l => l.id == linkId) <;>
        simp_all
  · cases he : user.aiCollectionsEnabled <;>
      cases hl : link.aiCollectionAssigned <;>
        simp_all

/-- Updating the store at the id of a found link rewrites what is found at
that id by the update function. -/
theorem find?_updateLink (db : DB) (g : LinkRec → LinkRec)
    (hg : ∀ l, (g l).id = l.id) (linkId : Int) (link : LinkRec)
    (h : db.links.find? (fun l => l.id == linkId) = some link) :
    (updateLink db link.id g).links.find? (fun l => l.id == linkId) = some (g link) := by
  have hid : link.id = linkId := by simpa using List.find?_some h
  show (db.links.map (fun l => if l.id == link.id then g l else l)).find?
      (fun l => l.id == linkId) = some (g link)
  rw [hid]
  exact find?_map_ite_id db.links linkId g hg link h

/-- Helper: a decision cycle that reaches classification and gets a reply
commits the chosen id and the latch. -/
theorem autoAssign_commit_of (e : Env) (user : User) (linkId : Int)
    (context : AssignmentContext) (classify : String → Option Int) (db : DB)
    (link : LinkRec) (rid : Int)
    (henabled : user.aiCollectionsEnabled = true)
    (hfind : db.links.find? (fun l => l.id == linkId) = some link)
    (hlatch : link.aiCollectionAssigned = false)
    (hcand : candidateCollections db user ≠ [])
    (hreply : classifyCall e classify
        (buildPrompt link (collectionNameOf db link) (candidateCollections db user) context)
      = some rid) :
    (autoAssignCollection e user linkId context classify db).1
        = some (if rid ∈ (candidateCollections db user).map (fun c => c.id) then rid
            else link.collectionId) ∧
    (autoAssignCollection e user linkId context classify db).2.links.find?
        (fun l => l.id == linkId)
      = some { link with
          collectionId := (if rid ∈ (candidateCollections db user).map (fun c => c.id)
            then rid else link.collectionId),
          aiCollectionAssigned := true } := by
  have hid : link.id = linkId := by simpa using List.find?_some hfind
  have hemp : (candidateCollections db user).isEmpty = false := by
    simpa [List.isEmpty_iff] using hcand
  unfold autoAssignCollection
  simp only [henabled, Bool.not_true, Bool.false_eq_true, if_false, hfind, hlatch, hemp,
    hreply]
  by_cases hm : rid ∈ (candidateCollections db user).map (fun c => c.id)
  · simp only [hm, if_true, if_pos]
    by_cases hrc : rid = link.collectionId
    · subst hrc
      simp only [beq_self_eq_true, if_true]
      refine ⟨by trivial, ?_⟩
      exact find?_updateLink db (fun l => { l with aiCollectionAssigned := true })
        (fun l => rfl) linkId link hfind
    · have hbeq : (rid == link.collectionId) = false := by simpa using hrc
      simp only [hbeq, Bool.false_eq_true, if_false]
      refine ⟨by trivial, ?_⟩
      exact find?_updateLink db
        (fun l => { l with collectionId := rid, aiCollectionAssigned := true })
        (fun l => rfl) linkId link hfind
  · simp only [hm, if_false, beq_self_eq_true, if_true]
    refine ⟨by trivial, ?_⟩
    exact find?_updateLink db (fun l => { l with aiCollectionAssigned := true })
      (fun l => rfl) linkId link hfind

/-- C2: every no-decision path of the resolver — feature disabled, link
missing, link already latched, empty candidate set, or any failure of the
structured-generation call or its validation for this cycle — returns the
undefined sentinel and leaves the store (in particular the link and its
latch) unchanged. -/
theorem autoAssignCollection_noop (e : Env) (user : User) (linkId : Int)
    (context : AssignmentContext) (classify : String → Option Int) (db : DB)
    (h : user.aiCollectionsEnabled = false ∨
         db.links.find? (fun l => l.id == linkId) = none ∨
         (∃ link, db.links.find? (fun l => l.id == linkId) = some link ∧
            link.aiCollectionAssigned = true) ∨
         candidateCollections db user = [] ∨
         (∃ link, db.links.find? (fun l => l.id == linkId) = some link ∧
            classifyCall e classify (buildPrompt link (collectionNameOf db link)
              (candidateCollections db user) context) = none)) :
    autoAssignCollection e user linkId context classify db = (none, db) :=
  autoAssign_noop_of e user linkId context classify db h

/-- Witness for C2: on the sample store, a failing classification call leaves
the store unchanged and returns the sentinel. -/
theorem autoAssignCollection_noop_witness :
    autoAssignCollection envOpenAI sampleUser 100 {} (fun _ => none) sampleDB
      = (none, sampleDB) :=
  autoAssignCollection_noop envOpenAI sampleUser 100 {} (fun _ => none) sampleDB
    (Or.inr (Or.inr (Or.inr (Or.inr ⟨sampleLink, by decide,
      by simp [classifyCall, getAIModel, envOpenAI]⟩))))

/-- C1: a decision cycle that reaches classification and gets a validated
reply commits: the final collection id is the returned id when it is among
the candidate ids and the pre-call id otherwise, the latch is set, and the
function returns the final id. -/
theorem autoAssignCollection_decision (e : Env) (user : User) (linkId : Int)
    (context : AssignmentContext) (classify : String → Option Int) (db : DB)
    (link : LinkRec) (rid : Int)
    (henabled : user.aiCollectionsEnabled = true)
    (hfind : db.links.find? (fun l => l.id == linkId) = some link)
    (hlatch : link.aiCollectionAssigned = false)
    (hcand : candidateCollections db user ≠ [])
    (hreply : classifyCall e classify
        (buildPrompt link (collectionNameOf db link) (candidateCollections db user) context)
      = some rid) :
    (autoAssignCollection e user linkId context classify db).1
        = some (if rid ∈ (candidateCollections db user).map (fun c => c.id) then rid
            else link.collectionId) ∧
    (autoAssignCollection e user linkId context classify db).2.links.find?
        (fun l => l.id == linkId)
      = some { link with
          collectionId := (if rid ∈ (candidateCollections db user).map (fun c => c.id)
            then rid else link.collectionId),
          aiCollectionAssigned := true } :=
  autoAssign_commit_of e user linkId context classify db link rid
    henabled hfind hlatch hcand hreply

/-- Witness for C1: on the sample store with a configured provider and a model
answering collection 2, the link moves to collection 2 and is latched. -/
theorem autoAssignCollection_decision_witness :
    (autoAssignCollection envOpenAI sampleUser 100 {} (fun _ => some 2) sampleDB).1
        = some (if (2 : Int) ∈ (candidateCollections sampleDB sampleUser).map (fun c => c.id)
            then 2 else sampleLink.collectionId) ∧
    (autoAssignCollection envOpenAI sampleUser 100 {} (fun _ => some 2) sampleDB).2.links.find?
        (fun l => l.id == 100)
      = some { sampleLink with
          collectionId :=
            (if (2 : Int) ∈ (candidateCollections sampleDB sampleUser).map (fun c => c.id)
              then 2 else sampleLink.collectionId),
          aiCollectionAssigned := true } :=
  autoAssignCollection_decision envOpenAI sampleUser 100 {} (fun _ => some 2) sampleDB
    sampleLink 2 rfl (by decide) rfl (by decide) rfl

/-- C3: whatever the classification outcome, the collection id persisted on a
found link is a member of the candidate ids or its pre-call collection id;
the candidate set has at most 25 entries, each backed by a collection of the
store owned by the requesting user, ordered most-recently-updated first; no
ownership check is made on the link itself (the hypothesis only requires the
link to exist). -/
theorem autoAssignCollection_permitted (e : Env) (user : User) (linkId : Int)
    (context : AssignmentContext) (classify : String → Option Int) (db : DB)
    (link : LinkRec)
    (hfind : db.links.find? (fun l => l.id == linkId) = some link) :
    (∀ link', (autoAssignCollection e user linkId context classify db).2.links.find?
        (fun l => l.id == linkId) = some link' →
      link'.collectionId = link.collectionId ∨
        link'.collectionId ∈ (candidateCollections db user).map (fun c => c.id)) ∧
    (candidateCollections db user).length ≤ 25 ∧
    (∀ cc ∈ candidateCollections db user,
      ∃ c ∈ db.collections, c.id = cc.id ∧ c.ownerId = user.id) ∧
    ((sortByUpdatedAtDesc (db.collections.filter
        (fun c => c.ownerId == user.id))).take 25).Pairwise
      (fun a b => b.updatedAt ≤ a.updatedAt) := by
  refine ⟨?_, candidateCollections_length_le db user, candidateCollections_owned db user,
    List.Pairwise.sublist (List.take_sublist _ _) (pairwise_sortByUpdatedAtDesc _)⟩
  intro link' hfind'
  by_cases he : user.aiCollectionsEnabled = true
  · by_cases hl : link.aiCollectionAssigned = true
    · have h2 : (autoAssignCollection e user linkId context classify db).2 = db := by
        rw [autoAssign_noop_of e user linkId context classify db
          (Or.inr (Or.inr (Or.inl ⟨link, hfind, hl⟩)))]
      rw [h2, hfind] at hfind'
      obtain rfl := Option.some.inj hfind'
      exact Or.inl rfl
    · have hl' : link.aiCollectionAssigned = false := by simpa using hl
      by_cases hc : candidateCollections db user = []
      · have h2 : (autoAssignCollection e user linkId context classify db).2 = db := by
          rw [autoAssign_noop_of e user linkId context classify db
            (Or.inr (Or.inr (Or.inr (Or.inl hc))))]
        rw [h2, hfind] at hfind'
        obtain rfl := Option.some.inj hfind'
        exact Or.inl rfl
      · cases hr : classifyCall e classify (buildPrompt link (collectionNameOf db link)
            (candidateCollections db user) context) with
        | none =>
          have h2 : (autoAssignCollection e user linkId context classify db).2 = db := by
            rw [autoAssign_noop_of e user linkId context classify db
              (Or.inr (Or.inr (Or.inr (Or.inr ⟨link, hfind, hr⟩))))]
          rw [h2, hfind] at hfind'
          obtain rfl := Option.some.inj hfind'
          exact Or.inl rfl
        | some rid =>
          have hdec := autoAssign_commit_of e user linkId context classify db link rid
            he hfind hl' hc hr
          rw [hdec.2] at hfind'
          obtain rfl := Option.some.inj hfind'
          by_cases hm : rid ∈ (candidateCollections db user).map (fun c => c.id)
          · right
            simp [hm]
          · left
            simp [hm]
  · have he' : user.aiCollectionsEnabled = false := by simpa using he
    have h2 : (autoAssignCollection e user linkId context classify db).2 = db := by
      rw [autoAssign_noop_of e user linkId context classify db (Or.inl he')]
    rw [h2, hfind] at hfind'
    obtain rfl := Option.some.inj hfind'
    exact Or.inl rfl

/-- Witness for C3 on the sample store with an out-of-set reply. -/
theorem autoAssignCollection_permitted_witness :
    (∀ link', (autoAssignCollection envOpenAI sampleUser 100 {} (fun _ => some 99)
        sampleDB).2.links.find? (fun l => l.id == 100) = some link' →
      link'.collectionId = sampleLink.collectionId ∨
        link'.collectionId ∈ (candidateCollections sampleDB sampleUser).map (fun c => c.id)) ∧
    (candidateCollections sampleDB sampleUser).length ≤ 25 ∧
    (∀ cc ∈ candidateCollections sampleDB sampleUser,
      ∃ c ∈ sampleDB.collections, c.id = cc.id ∧ c.ownerId = sampleUser.id) ∧
    ((sortByUpdatedAtDesc (sampleDB.collections.filter
        (fun c => c.ownerId == sampleUser.id))).take 25).Pairwise
      (fun a b => b.updatedAt ≤ a.updatedAt) :=
  autoAssignCollection_permitted envOpenAI sampleUser 100 {} (fun _ => some 99) sampleDB
    sampleLink (by decide)

/-- C8: if a run of the resolver completes its decision cycle (returns a
collection id), running it again on the resulting store is a no-op that
returns the sentinel and changes nothing, because the latch set by the first
run makes the link ineligible — two runs end in the same state as one. -/
theorem autoAssignCollection_idempotent (e : Env) (user : User) (linkId : Int)
    (context : AssignmentContext) (classify : String → Option Int) (db : DB)
    (h : (autoAssignCollection e user linkId context classify db).1.isSome = true) :
    autoAssignCollection e user linkId context classify
        (autoAssignCollection e user linkId context classify db).2
      = (none, (autoAssignCollection e user linkId context classify db).2) := by
  by_cases he : user.aiCollectionsEnabled = true
  · cases hfind : db.links.find? (fun l => l.id == linkId) with
    | none =>
      rw [autoAssign_noop_of e user linkId context classify db (Or.inr (Or.inl hfind))] at h
      simp at h
    | some link =>
      by_cases hl : link.aiCollectionAssigned = true
      · rw [autoAssign_noop_of e user linkId context classify db
          (Or.inr (Or.inr (Or.inl ⟨link, hfind, hl⟩)))] at h
        simp at h
      · have hl' : link.aiCollectionAssigned = false := by simpa using hl
        by_cases hc : candidateCollections db user = []
        · rw [autoAssign_noop_of e user linkId context classify db
            (Or.inr (Or.inr (Or.inr (Or.inl hc))))] at h
          simp at h
        · cases hr : classifyCall e classify (buildPrompt link (collectionNameOf db link)
              (candidateCollections db user) context) with
          | none =>
            rw [autoAssign_noop_of e user linkId context classify db
              (Or.inr (Or.inr (Or.inr (Or.inr ⟨link, hfind, hr⟩))))] at h
            simp at h
          | some rid =>
            have hdec := autoAssign_commit_of e user linkId context classify db link rid
              he hfind hl' hc hr
            exact autoAssign_noop_of e user linkId context classify _
              (Or.inr (Or.inr (Or.inl ⟨_, hdec.2, rfl⟩)))
  · have he' : user.aiCollectionsEnabled = false := by simpa using he
    rw [autoAssign_noop_of e user linkId context classify db (Or.inl he')] at h
    simp at h

/-- Witness for C8: on the sample store a completed first run latches the
link, and the second run is a no-op on the resulting store. -/
theorem autoAssignCollection_idempotent_witness :
    autoAssignCollection envOpenAI sampleUser 100 {} (fun _ => some 2)
        (autoAssignCollection envOpenAI sampleUser 100 {} (fun _ => some 2) sampleDB).2
      = (none, (autoAssignCollection envOpenAI sampleUser 100 {}
          (fun _ => some 2) sampleDB).2) :=
  autoAssignCollection_idempotent envOpenAI sampleUser 100 {} (fun _ => some 2) sampleDB
    (by decide)

/-- Helper: when provider resolution fails, the resolver is a silent no-op
(the thrown configuration error is caught inside the per-link try/catch). -/
theorem autoAssign_config_error (e : Env) (msg : String) (user : User) (linkId : Int)
    (context : AssignmentContext) (classify : String → Option Int) (db : DB)
    (herr : getAIModel e = .error msg) :
    autoAssignCollection e user linkId context classify db = (none, db) := by
  cases hfind : db.links.find? (fun l => l.id == linkId) with
  | none => exact autoAssign_noop_of _ _ _ _ _ _ (Or.inr (Or.inl hfind))
  | some link =>
    exact autoAssign_noop_of _ _ _ _ _ _ (Or.inr (Or.inr (Or.inr (Or.inr
      ⟨link, hfind, by simp [classifyCall, herr]⟩))))

/-- Helper: the loop counter counts exactly one per iterated link, whatever
the per-link outcomes. -/
theorem batchLoop_fst (e : Env) (user : User) (classify : Int → String → Option Int) :
    ∀ (ls : List LinkRec) (n : Nat) (db : DB),
      (batchLoop e user classify ls (n, db)).1 = n + ls.length := by
  intro ls
  induction ls with
  | nil => intro n db; simp [batchLoop]
  | cons l ls ih =>
    intro n db
    show (batchLoop e user classify ls
        (n + 1, (autoAssignCollection e user l.id (apiContext l) (classify l.id) db).2)).1 = _
    rw [ih]
    simp
    omega

/-- Helper: under a provider-configuration error every loop iteration is a
no-op, so the batch counts all links and leaves the store unchanged. -/
theorem batchLoop_config_error (e : Env) (msg : String) (user : User)
    (classify : Int → String → Option Int) (herr : getAIModel e = .error msg) :
    ∀ (ls : List LinkRec) (n : Nat) (db : DB),
      batchLoop e user classify ls (n, db) = (n + ls.length, db) := by
  intro ls
  induction ls with
  | nil => intro n db; simp [batchLoop]
  | cons l ls ih =>
    intro n db
    show batchLoop e user classify ls
        (n + 1, (autoAssignCollection e user l.id (apiContext l) (classify l.id) db).2) = _
    rw [autoAssign_config_error e msg user l.id (apiContext l) (classify l.id) db herr]
    rw [ih]
    have : n + 1 + ls.length = n + (ls.length + 1) := by omega
    simp [this]

/-- C6: with the whole-batch preconditions satisfied, the endpoint responds
200 with a processed count equal to the number of selected links — at most 50
of the user's unlatched links — whatever the per-link classification
outcomes, counting no-ops and failures alike. -/
theorem handler_processed (e : Env) (db : DB) (uid : Int) (user : User)
    (classify : Int → String → Option Int)
    (hu : db.users.find? (fun u => u.id == uid) = some user)
    (hen : user.aiCollectionsEnabled = true)
    (hp : providerKeyPresent e = true) :
    (handler e db "POST" (.ok uid) classify).1
        = .ok (selectBatchLinks db user.id).length ∧
    statusOf (handler e db "POST" (.ok uid) classify).1 = 200 ∧
    (selectBatchLinks db user.id).length ≤ 50 := by
  have hlen : (selectBatchLinks db user.id).length ≤ 50 := by
    simp only [selectBatchLinks]
    simp [Nat.min_le_left]
  have hh : (handler e db "POST" (.ok uid) classify).1
      = .ok (selectBatchLinks db user.id).length := by
    unfold handler
    simp [hu, hen, hp, batchLoop_fst]
  exact ⟨hh, by rw [hh]; rfl, hlen⟩

/-- Witness for C6 on the sample store: one eligible link, processed count 1. -/
theorem handler_processed_witness :
    (handler envOpenAI sampleDB "POST" (.ok 7) (fun _ _ => some 2)).1
        = .ok (selectBatchLinks sampleDB sampleUser.id).length ∧
    statusOf (handler envOpenAI sampleDB "POST" (.ok 7) (fun _ _ => some 2)).1 = 200 ∧
    (selectBatchLinks sampleDB sampleUser.id).length ≤ 50 :=
  handler_processed envOpenAI sampleDB 7 sampleUser (fun _ _ => some 2)
    (by decide) rfl rfl

/-- An environment with an API key present but no model configured anywhere:
the endpoint gate passes while provider resolution fails. -/
def envKeyNoModel : Env := { OPENAI_API_KEY := "sk-test" }

/-- C5 (amended): the endpoint fails fast with 400 before touching any link
for the whole-batch preconditions — feature disabled, or no provider key or
endpoint present at all; but a configuration error from a partially
configured provider (key present, models missing) passes the gate, is caught
per link, and is recovered as a silent per-link no-op: the batch still
responds 200 with the full processed count and the store is unchanged. -/
theorem handler_batch_preconditions (e : Env) (db : DB) (uid : Int) (user : User)
    (classify : Int → String → Option Int)
    (hu : db.users.find? (fun u => u.id == uid) = some user) :
    (user.aiCollectionsEnabled = false →
      handler e db "POST" (.ok uid) classify
          = (.badRequest "AI collection routing is disabled.", db) ∧
      statusOf (handler e db "POST" (.ok uid) classify).1 = 400) ∧
    (user.aiCollectionsEnabled = true → providerKeyPresent e = false →
      handler e db "POST" (.ok uid) classify
          = (.badRequest "No AI provider configured.", db) ∧
      statusOf (handler e db "POST" (.ok uid) classify).1 = 400) ∧
    (∀ msg, user.aiCollectionsEnabled = true → providerKeyPresent e = true →
      getAIModel e = .error msg →
      handler e db "POST" (.ok uid) classify
          = (.ok (selectBatchLinks db user.id).length, db)) := by
  refine ⟨?_, ?_, ?_⟩
  · intro hen
    have hh : handler e db "POST" (.ok uid) classify
        = (.badRequest "AI collection routing is disabled.", db) := by
      unfold handler
      simp [hu, hen]
    exact ⟨hh, by rw [hh]; rfl⟩
  · intro hen hp
    have hh : handler e db "POST" (.ok uid) classify
        = (.badRequest "No AI provider configured.", db) := by
      unfold handler
      simp [hu, hen, hp]
    exact ⟨hh, by rw [hh]; rfl⟩
  · intro msg hen hp herr
    unfold handler
    simp only [hu, hen, hp]
    rw [batchLoop_config_error e msg user classify herr (selectBatchLinks db user.id) 0 db]
    simp

/-- Witness for C5 (amended): on the sample store with the feature disabled
for a user, the endpoint fails fast with 400 and the store is untouched. -/
theorem handler_batch_preconditions_witness :
    handler envOpenAI
        { sampleDB with users := [{ id := 7, aiCollectionsEnabled := false }] }
        "POST" (.ok 7) (fun _ _ => some 2)
      = (.badRequest "AI collection routing is disabled.",
         { sampleDB with users := [{ id := 7, aiCollectionsEnabled := false }] }) :=
  ((handler_batch_preconditions envOpenAI
      { sampleDB with users := [{ id := 7, aiCollectionsEnabled := false }] }
      7 { id := 7, aiCollectionsEnabled := false } (fun _ _ => some 2)
      (by decide)).1 rfl).1

/-- Counterexample for C5 as stated: with only an API key set and no model
name anywhere, provider resolution raises the configuration error, yet the
batch call passes the endpoint gate, responds 200 with the full processed
count, and every link is silently left untouched — the error is recovered as
a per-link no-op instead of being fatal and surfaced. -/
theorem handler_config_error_recovered :
    getAIModel envKeyNoModel = .error "No AI provider configured" ∧
    providerKeyPresent envKeyNoModel = true ∧
    handler envKeyNoModel sampleDB "POST" (.ok 7) (fun _ _ => some 2)
      = (.ok 1, sampleDB) ∧
    statusOf (handler envKeyNoModel sampleDB "POST" (.ok 7) (fun _ _ => some 2)).1 = 200 :=
  ⟨rfl, rfl, rfl, rfl⟩

/-- C10 (amended): the batch endpoint passes the stored link description as
the meta description and the stored text content pre-truncated to its first
2000 characters as the page content; hence for a link with a non-empty
description, the description appears twice, consecutively, among the
newline-joined segments of the condensed content block before the builder
applies its own 2000-character cap (the cap may cut the duplicate off). -/
theorem apiContext_description_twice (l : LinkRec) (hd : l.description ≠ "") :
    (apiContext l).metaDescription = some l.description ∧
    (apiContext l).pageContent = l.textContent.map (fun s => jsSlice s 2000) ∧
    jsFilterBoolean (condensedSources l (apiContext l))
        = jsFilterBoolean [some l.name]
            ++ [l.description, l.description]
            ++ jsFilterBoolean [(apiContext l).pageContent] ∧
    (∀ p, (apiContext l).pageContent = some p → p.length ≤ 2000) := by
  refine ⟨rfl, rfl, ?_, ?_⟩
  · by_cases hn : l.name = "" <;> cases ht : l.textContent <;>
      simp [condensedSources, apiContext, jsFilterBoolean, hd, hn, ht]
  · intro p hp
    cases ht : l.textContent with
    | none => simp [apiContext, ht] at hp
    | some s =>
      simp only [apiContext, ht, Option.map_some] at hp
      obtain rfl := Option.some.inj hp.symm
      exact jsSlice_length_le s 2000

/-- Witness for C10 (amended) on the sample link with a non-empty description. -/
theorem apiContext_description_twice_witness :
    (apiContext sampleLink).metaDescription = some sampleLink.description ∧
    (apiContext sampleLink).pageContent
        = sampleLink.textContent.map (fun s => jsSlice s 2000) ∧
    jsFilterBoolean (condensedSources sampleLink (apiContext sampleLink))
        = jsFilterBoolean [some sampleLink.name]
            ++ [sampleLink.description, sampleLink.description]
            ++ jsFilterBoolean [(apiContext sampleLink).pageContent] ∧
    (∀ p, (apiContext sampleLink).pageContent = some p → p.length ≤ 2000) :=
  apiContext_description_twice sampleLink (by decide)

/-- A link whose 2000-character name already fills the condensed block. -/
def linkLongName : LinkRec :=
  { id := 101, url := "https://example.com/a",
    name := String.mk (List.replicate 2000 'a'),
    description := "x", textContent := none,
    collectionId := 1, aiCollectionAssigned := false }

/-- The long name has exactly 2000 characters (shown without evaluating it). -/
theorem linkLongName_name_len : linkLongName.name.data.length = 2000 :=
  List.length_replicate 2000 'a'

/-- The long name has length 2000 also through the string-length view. -/
theorem linkLongName_name_length : linkLongName.name.length = 2000 :=
  linkLongName_name_len

/-- The long name is a non-empty string. -/
theorem linkLongName_name_ne : linkLongName.name ≠ "" := by
  intro heq
  have hlen : linkLongName.name.data.length = "".data.length :=
    congrArg (fun s => s.data.length) heq
  rw [linkLongName_name_len] at hlen
  exact absurd hlen (by decide)

/-- The filtered sources of the long-name link under the endpoint context. -/
theorem linkLongName_parts :
    jsFilterBoolean (condensedSources linkLongName (apiContext linkLongName))
      = [linkLongName.name, "x", "x"] := by
  show jsFilterBoolean [some linkLongName.name, some "x", some "x", none]
      = [linkLongName.name, "x", "x"]
  simp [jsFilterBoolean, linkLongName_name_ne]

/-- The condensed block of the long-name link is exactly its name: the
2000-character cap cuts everything after it. -/
theorem linkLongName_block :
    (condensedContent linkLongName (apiContext linkLongName)).data
      = linkLongName.name.data := by
  show ((String.intercalate "\n" (jsFilterBoolean (condensedSources linkLongName
      (apiContext linkLongName)))).data).take 2000 = linkLongName.name.data
  rw [linkLongName_parts]
  show ((((linkLongName.name.data ++ ('\n' :: [])) ++ ('x' :: [])) ++ ('\n' :: []))
      ++ ('x' :: [])).take 2000 = linkLongName.name.data
  rw [List.take_append_of_le_length (by simp [linkLongName_name_length]),
    List.take_append_of_le_length (by simp [linkLongName_name_length]),
    List.take_append_of_le_length (by simp [linkLongName_name_length]),
    List.take_append_of_le_length (by simp [linkLongName_name_length])]
  rw [← linkLongName_name_len]
  exact List.take_length linkLongName.name.data

/-- Counterexample for C10 as stated: with the endpoint-supplied context, a
link whose name already fills the 2000-character cap has a non-empty
description that does not appear twice as consecutive newline-joined segments
in the condensed content block — the cap cut the duplicate off. -/
theorem apiContext_description_cutoff :
    linkLongName.description ≠ "" ∧
    ¬ ∃ pre post : String,
        condensedContent linkLongName (apiContext linkLongName)
          = pre ++ (linkLongName.description ++ "\n" ++ linkLongName.description) ++ post := by
  refine ⟨by decide, ?_⟩
  rintro ⟨pre, post, h⟩
  have hx : 'x' ∈ (condensedContent linkLongName (apiContext linkLongName)).data := by
    rw [h]
    show 'x' ∈ (pre ++ (linkLongName.description ++ "\n"
        ++ linkLongName.description)).data ++ post.data
    refine List.mem_append.mpr (Or.inl ?_)
    show 'x' ∈ pre.data ++ ('x' :: '\n' :: 'x' :: [])
    exact List.mem_append.mpr (Or.inr (List.mem_cons_self _ _))
  rw [linkLongName_block] at hx
  exact absurd (List.eq_of_mem_replicate hx) (by decide)
